import Mathlib

/-!
Verification of RepoRover (src/RepoRover/RepoRover.py) against its
natural-language specification.

The development is a shallow embedding of the program: HTTP fetches are
modelled by an explicit environment (`World`) mapping each request to its
outcome, HTML documents are modelled by the results of the BeautifulSoup
queries the program performs (`Doc`), Python exceptions become `Except PyErr`,
and the append-only CSV file becomes an explicit list of rows threaded through
`main`.  Two facts about the Python runtime that the source depends on are
recorded explicitly: the module `time` is never imported (so `time.sleep(1)`
raises `NameError`), and `import datetime` binds the module object, which has
no `now` attribute (so `datetime.now()` raises `AttributeError`).
-/

namespace RepoRover

/-- Line 15: `base_url = "https://github.com"`. -/
def base_url : String := "https://github.com"

/-- Line 16: `csv_file_path = "readmeMD.csv"`. -/
def csv_file_path : String := "readmeMD.csv"

/-- Line 17: `max_workers = 4`. -/
def max_workers : Nat := 4

/-- Line 20: the header row of the CSV file. -/
def headers : List String :=
  ["Processed At", "Repository Name", "Homepage URL", "Processed Readme.MD Content"]

/-- Python exceptions that the program can raise. -/
inductive PyErr where
  | nameError : String → PyErr
  | attributeError : String → PyErr
  | typeError : String → PyErr
  | keyError : String → PyErr
  deriving Repr, DecidableEq

/-- Transport-level failures of `requests.get` (subclasses of
`requests.RequestException`). -/
inductive TransportError where
  | connectionError : TransportError
  | timeout : TransportError
  deriving Repr, DecidableEq

/-- An HTML document, abstracted to the results of the BeautifulSoup queries
the program performs on it:
`repoAnchorHrefs` is the list of `href` values selected by
`select("h1[class='h3 lh-condensed'] a[href]")` (line 41), in document order;
`readmeAnchor` is the attribute list of the first element found by
`find("a", {"id": "readme-permalink"})` (line 69), if any;
`publicH1` is the `.text` of the first element found by
`find("h1", {"class": "public"})` (line 177), if any;
`raw` is the document source (`response.text` / `response.content`). -/
structure Doc where
  repoAnchorHrefs : List String
  readmeAnchor : Option (List (String × String))
  publicH1 : Option String
  raw : String
  deriving Repr, DecidableEq

/-- An HTTP response: `requests.get` result with its parsed body.  Parsing the
raw text of a response with BeautifulSoup is modelled as yielding `doc`. -/
structure Response where
  status_code : Nat
  doc : Doc
  deriving Repr, DecidableEq

/-- Outcome of one `requests.get` call: a response, or a raised
transport-level exception. -/
abbrev FetchResult := Except TransportError Response

/-- The network environment of one run: the outcome of fetching the listing
page, the outcome of the i-th GET of each repository page (the retry logic
refetches the same URL, so outcomes are indexed by attempt number), and the
outcome of fetching each README permalink URL. -/
structure World where
  listingFetch : FetchResult
  repoPageFetch : String → Nat → FetchResult
  readmeFetch : String → FetchResult

/-- A CSV record as produced by `csv.DictReader` / consumed by
`csv.DictWriter`: an insertion-ordered dictionary from field name to value. -/
abbrev Row := List (String × String)

/-- Looking up `d[k]` on a Python dict: `KeyError` when the key is absent. -/
def pyDictGet (d : Row) (k : String) : Except PyErr String :=
  match d.find? (fun p => p.fst == k) with
  | some p => .ok p.snd
  | none => .error (.keyError k)

/-- Looking up `d.get(k, v)` on a Python dict. -/
def pyDictGetD (d : Row) (k : String) (v : String) : String :=
  match d.find? (fun p => p.fst == k) with
  | some p => p.snd
  | none => v

/-- The value actually passed as `existing_data` to `process_repository`: the
function is written for a list of row dicts (its docstring, line 166), but the
call `executor.map(process_repository, repo_urls, existing_data)` (line 236)
pairs each URL with a single row dict. -/
inductive PyVal where
  | list : List Row → PyVal
  | dict : Row → PyVal

/-- The module-level names bound by the import statements of RepoRover.py
(lines 1-11).  `from`-imports bind the imported attribute names; `time` is not
among the bound names. -/
def bound_names : List String :=
  ["datetime", "concurrent", "os", "BeautifulSoup", "csv", "logging",
   "requests", "PorterStemmer", "WordNetLemmatizer", "word_tokenize",
   "stopwords"]

/-- Evaluation of `time.sleep(1)` at line 84: the name `time` is resolved
against the module-level bound names; since the module `time` is never
imported, the evaluation raises `NameError`. -/
def time_sleep_1 : Except PyErr Unit :=
  if "time" ∈ bound_names then .ok () else .error (.nameError "time")

/-- Public attributes of Python's `datetime` module object: it exposes the
`datetime`, `date`, `time`, `timedelta`, `tzinfo`, `timezone` classes and the
`MINYEAR`/`MAXYEAR` constants, but no module-level `now`. -/
def datetime_module_attrs : List String :=
  ["date", "time", "datetime", "timedelta", "tzinfo", "timezone",
   "MINYEAR", "MAXYEAR"]

/-- Evaluation of `datetime.now().strftime("%Y-%m-%d %H:%M:%S")` at line 189:
the file does `import datetime` (line 1), which binds the module object, so
the attribute access `datetime.now` raises `AttributeError` (the callable is
`datetime.datetime.now`). -/
def datetime_now_strftime : Except PyErr String :=
  if "now" ∈ datetime_module_attrs then .ok "1970-01-01 00:00:00"
  else .error (.attributeError "now")

/-- Reading `element['href']` on a BeautifulSoup tag: `KeyError` if absent,
modelled as an `Option` lookup over the attribute list. -/
def lookup_attr (attrs : List (String × String)) (key : String) : Option String :=
  match attrs.find? (fun p => p.fst == key) with
  | some p => some p.snd
  | none => none

/-! Text Normalizer (`preprocess_content`, lines 98-140).  The external NLP
capabilities it glues together are modelled at the granularity the claims
need: lowercasing is character-wise `Char.toLower`, BeautifulSoup's
`get_text()` over the lowercased source drops everything between `<` and `>`,
`nltk.tokenize.word_tokenize` on the plain running text the program feeds it
splits at whitespace, `nltk.corpus.stopwords.words("english")` is the fixed
English stopword list, and `PorterStemmer.stem` is the Porter algorithm. -/

/-- Line 115: `content.lower()`, character-wise lowercasing. -/
def lowerString (s : String) : String := ⟨s.data.map Char.toLower⟩

/-- Character scan behind `BeautifulSoup(content).get_text()` (lines 118-119):
text outside angle-bracket tags is kept, tag material is dropped.  The flag is
true while inside a tag. -/
def stripTagsAux : List Char → Bool → List Char
  | [], _ => []
  | c :: cs, true => if c = '>' then stripTagsAux cs false else stripTagsAux cs true
  | c :: cs, false => if c = '<' then stripTagsAux cs true else c :: stripTagsAux cs false

/-- Markup removal of lines 118-119: keep only the visible text. -/
def stripTags (s : String) : String := ⟨stripTagsAux s.data false⟩

/-- Accumulating whitespace split: the current (reversed) word is carried in
the accumulator. -/
def splitWordsAux : List Char → List Char → List (List Char)
  | [], acc => if acc.isEmpty then [] else [acc.reverse]
  | c :: cs, acc =>
    if c.isWhitespace then
      if acc.isEmpty then splitWordsAux cs [] else acc.reverse :: splitWordsAux cs []
    else splitWordsAux cs (c :: acc)

/-- Line 122: `word_tokenize(preprocessed_content)`.  On the running text the
program feeds it (plain words separated by whitespace) nltk's tokenizer
returns the whitespace-separated words, which is how it is modelled. -/
def word_tokenize (s : String) : List String :=
  (splitWordsAux s.data []).map (fun l => ⟨l⟩)

/-- Line 125: `stopwords.words("english")`, the fixed English stopword list
shipped with nltk. -/
def stop_words : List String :=
  ["i", "me", "my", "myself", "we", "our", "ours", "ourselves", "you",
   "you\x27re", "you\x27ve", "you\x27ll", "you\x27d", "your", "yours",
   "yourself", "yourselves", "he", "him", "his", "himself", "she",
   "she\x27s", "her", "hers", "herself", "it", "it\x27s", "its", "itself",
   "they", "them", "their", "theirs", "themselves", "what", "which", "who",
   "whom", "this", "that", "that\x27ll", "these", "those", "am", "is",
   "are", "was", "were", "be", "been", "being", "have", "has", "had",
   "having", "do", "does", "did", "doing", "a", "an", "the", "and", "but",
   "if", "or", "because", "as", "until", "while", "of", "at", "by", "for",
   "with", "about", "against", "between", "into", "through", "during",
   "before", "after", "above", "below", "to", "from", "up", "down", "in",
   "out", "on", "off", "over", "under", "again", "further", "then", "once",
   "here", "there", "when", "where", "why", "how", "all", "any", "both",
   "each", "few", "more", "most", "other", "some", "such", "no", "nor",
   "not", "only", "own", "same", "so", "than", "too", "very", "s", "t",
   "can", "will", "just", "don", "don\x27t", "should", "should\x27ve",
   "now", "d", "ll", "m", "o", "re", "ve", "y", "ain", "aren",
   "aren\x27t", "couldn", "couldn\x27t", "didn", "didn\x27t", "doesn",
   "doesn\x27t", "hadn", "hadn\x27t", "hasn", "hasn\x27t", "haven",
   "haven\x27t", "isn", "isn\x27t", "ma", "mightn", "mightn\x27t",
   "mustn", "mustn\x27t", "needn", "needn\x27t", "shan", "shan\x27t",
   "shouldn", "shouldn\x27t", "wasn", "wasn\x27t", "weren", "weren\x27t",
   "won", "won\x27t", "wouldn", "wouldn\x27t"]

/-! Porter stemmer (`PorterStemmer().stem`, line 134-135): the Porter
algorithm over lowercase words, operating on character lists. -/

/-- Vowel letters of the Porter algorithm. -/
def isVowelChar (c : Char) : Bool :=
  c == 'a' || c == 'e' || c == 'i' || c == 'o' || c == 'u'

/-- Position `i` of word `w` holds a consonant: a letter other than
a, e, i, o, u and other than a `y` preceded by a consonant. -/
def isConsonant (w : List Char) : Nat → Bool
  | 0 =>
    match w.get? 0 with
    | none => false
    | some c => !(isVowelChar c)
  | i + 1 =>
    match w.get? (i + 1) with
    | none => false
    | some c =>
      if isVowelChar c then false
      else if c = 'y' then !(isConsonant w i)
      else true

/-- Consonant flags of a word, one per position. -/
def consTypes (w : List Char) : List Bool :=
  (List.range w.length).map (isConsonant w)

/-- Number of vowel-run/consonant-run transitions in a flag list: counts the
`m` of the Porter form `[C](VC)^m[V]`. -/
def countVC : List Bool → Nat
  | false :: true :: rest => 1 + countVC (true :: rest)
  | _ :: rest => countVC rest
  | [] => 0

/-- The Porter measure `m` of a word. -/
def stemMeasure (w : List Char) : Nat := countVC (consTypes w)

/-- Condition `*v*`: the stem contains a vowel. -/
def hasVowel (w : List Char) : Bool :=
  (List.range w.length).any (fun i => !(isConsonant w i))

/-- Condition `*d`: the stem ends with a double consonant. -/
def endsDoubleCons (w : List Char) : Bool :=
  decide (2 ≤ w.length) && (w.get? (w.length - 1) == w.get? (w.length - 2))
    && isConsonant w (w.length - 1)

/-- Condition `*o`: the stem ends consonant-vowel-consonant where the final
consonant is not `w`, `x` or `y`. -/
def endsCVC (w : List Char) : Bool :=
  decide (3 ≤ w.length) && isConsonant w (w.length - 3)
    && !(isConsonant w (w.length - 2)) && isConsonant w (w.length - 1)
    && (match w.get? (w.length - 1) with
        | some c => !(c == 'w' || c == 'x' || c == 'y')
        | none => false)

/-- One rewrite rule of a Porter step: a suffix to match, its replacement,
and an optional condition on the stem that remains after removing the
suffix. -/
structure StemRule where
  sfx : List Char
  repl : List Char
  cond : Option (List Char → Bool)

/-- Application of a Porter rule list: the first rule whose suffix matches
decides; if its condition fails the word is left unchanged (no further rule
is tried). -/
def applyRuleList (w : List Char) : List StemRule → List Char
  | [] => w
  | r :: rs =>
    if r.sfx.isSuffixOf w then
      match r.cond with
      | none => w.take (w.length - r.sfx.length) ++ r.repl
      | some c =>
        if c (w.take (w.length - r.sfx.length)) then
          w.take (w.length - r.sfx.length) ++ r.repl
        else w
    else applyRuleList w rs

/-- Condition `m > 0` on the stem. -/
def condMGt0 (stem : List Char) : Bool := decide (0 < stemMeasure stem)

/-- Condition `m > 1` on the stem. -/
def condMGt1 (stem : List Char) : Bool := decide (1 < stemMeasure stem)

/-- Porter step 1a: plural endings. -/
def step1a (w : List Char) : List Char :=
  applyRuleList w
    [⟨"sses".data, "ss".data, none⟩,
     ⟨"ies".data, "i".data, none⟩,
     ⟨"ss".data, "ss".data, none⟩,
     ⟨"s".data, [], none⟩]

/-- Cleanup after an `ed`/`ing` removal in Porter step 1b. -/
def step1bPost (w : List Char) : List Char :=
  if "at".data.isSuffixOf w || "bl".data.isSuffixOf w || "iz".data.isSuffixOf w then
    w ++ ['e']
  else if endsDoubleCons w
      && !("l".data.isSuffixOf w || "s".data.isSuffixOf w || "z".data.isSuffixOf w) then
    w.take (w.length - 1)
  else if stemMeasure w == 1 && endsCVC w then w ++ ['e']
  else w

/-- Porter step 1b: past/progressive endings. -/
def step1b (w : List Char) : List Char :=
  if "eed".data.isSuffixOf w then
    (if 0 < stemMeasure (w.take (w.length - 3)) then w.take (w.length - 3) ++ "ee".data
     else w)
  else if "ed".data.isSuffixOf w then
    (if hasVowel (w.take (w.length - 2)) then step1bPost (w.take (w.length - 2)) else w)
  else if "ing".data.isSuffixOf w then
    (if hasVowel (w.take (w.length - 3)) then step1bPost (w.take (w.length - 3)) else w)
  else w

/-- Porter step 1c: terminal `y`. -/
def step1c (w : List Char) : List Char :=
  if "y".data.isSuffixOf w then
    (if hasVowel (w.take (w.length - 1)) then w.take (w.length - 1) ++ ['i'] else w)
  else w

/-- Porter step 2: double-suffix reductions, under `m > 0`. -/
def step2 (w : List Char) : List Char :=
  applyRuleList w
    [⟨"ational".data, "ate".data, some condMGt0⟩,
     ⟨"tional".data, "tion".data, some condMGt0⟩,
     ⟨"enci".data, "ence".data, some condMGt0⟩,
     ⟨"anci".data, "ance".data, some condMGt0⟩,
     ⟨"izer".data, "ize".data, some condMGt0⟩,
     ⟨"abli".data, "able".data, some condMGt0⟩,
     ⟨"alli".data, "al".data, some condMGt0⟩,
     ⟨"entli".data, "ent".data, some condMGt0⟩,
     ⟨"eli".data, "e".data, some condMGt0⟩,
     ⟨"ousli".data, "ous".data, some condMGt0⟩,
     ⟨"ization".data, "ize".data, some condMGt0⟩,
     ⟨"ation".data, "ate".data, some condMGt0⟩,
     ⟨"ator".data, "ate".data, some condMGt0⟩,
     ⟨"alism".data, "al".data, some condMGt0⟩,
     ⟨"iveness".data, "ive".data, some condMGt0⟩,
     ⟨"fulness".data, "ful".data, some condMGt0⟩,
     ⟨"ousness".data, "ous".data, some condMGt0⟩,
     ⟨"aliti".data, "al".data, some condMGt0⟩,
     ⟨"iviti".data, "ive".data, some condMGt0⟩,
     ⟨"biliti".data, "ble".data, some condMGt0⟩]

/-- Porter step 3: further suffix reductions, under `m > 0`. -/
def step3 (w : List Char) : List Char :=
  applyRuleList w
    [⟨"icate".data, "ic".data, some condMGt0⟩,
     ⟨"ative".data, [], some condMGt0⟩,
     ⟨"alize".data, "al".data, some condMGt0⟩,
     ⟨"iciti".data, "ic".data, some condMGt0⟩,
     ⟨"ical".data, "ic".data, some condMGt0⟩,
     ⟨"ful".data, [], some condMGt0⟩,
     ⟨"ness".data, [], some condMGt0⟩]

/-- Condition of the `ion` rule of Porter step 4: `m > 1` and the stem ends
in `s` or `t`. -/
def condIon (stem : List Char) : Bool :=
  condMGt1 stem && ("s".data.isSuffixOf stem || "t".data.isSuffixOf stem)

/-- Porter step 4: suffix deletions, under `m > 1`. -/
def step4 (w : List Char) : List Char :=
  applyRuleList w
    [⟨"al".data, [], some condMGt1⟩,
     ⟨"ance".data, [], some condMGt1⟩,
     ⟨"ence".data, [], some condMGt1⟩,
     ⟨"er".data, [], some condMGt1⟩,
     ⟨"ic".data, [], some condMGt1⟩,
     ⟨"able".data, [], some condMGt1⟩,
     ⟨"ible".data, [], some condMGt1⟩,
     ⟨"ant".data, [], some condMGt1⟩,
     ⟨"ement".data, [], some condMGt1⟩,
     ⟨"ment".data, [], some condMGt1⟩,
     ⟨"ent".data, [], some condMGt1⟩,
     ⟨"ion".data, [], some condIon⟩,
     ⟨"ou".data, [], some condMGt1⟩,
     ⟨"ism".data, [], some condMGt1⟩,
     ⟨"ate".data, [], some condMGt1⟩,
     ⟨"iti".data, [], some condMGt1⟩,
     ⟨"ous".data, [], some condMGt1⟩,
     ⟨"ive".data, [], some condMGt1⟩,
     ⟨"ize".data, [], some condMGt1⟩]

/-- Porter step 5a: terminal `e`. -/
def step5a (w : List Char) : List Char :=
  if "e".data.isSuffixOf w then
    (if 1 < stemMeasure (w.take (w.length - 1)) then w.take (w.length - 1)
     else if stemMeasure (w.take (w.length - 1)) == 1 && !(endsCVC (w.take (w.length - 1))) then
       w.take (w.length - 1)
     else w)
  else w

/-- Porter step 5b: terminal double `l` under `m > 1`. -/
def step5b (w : List Char) : List Char :=
  if condMGt1 w && endsDoubleCons w && "l".data.isSuffixOf w then
    w.take (w.length - 1)
  else w

/-- The stemmer of lines 134-135 (`PorterStemmer().stem(token)`): words of at
most two letters are returned unchanged, longer words go through the Porter
steps. -/
def porter_stem (s : String) : String :=
  if s.data.length ≤ 2 then s
  else ⟨step5b (step5a (step4 (step3 (step2 (step1c (step1b (step1a s.data)))))))⟩

/-- Modelled from the spec: "lemmatization maps to a dictionary base form"
(glossary).  The WordNet dictionary of `WordNetLemmatizer` lives in external
nltk data, not in this repository, so it is modelled as a finite table of
inflected forms; words outside the table are returned unchanged, as
`lemmatize` does for words WordNet does not know. -/
def wordnet_table : List (String × String) :=
  [("dogs", "dog"), ("foxes", "fox"), ("repositories", "repository"),
   ("feet", "foot"), ("geese", "goose")]

/-- The lemmatizer of lines 131-132 (`WordNetLemmatizer().lemmatize(token)`),
over the modelled dictionary. -/
def wordnet_lemmatize (t : String) : String :=
  match wordnet_table.find? (fun p => p.fst == t) with
  | some p => p.snd
  | none => t

/-- Stages (a)-(d) of the normalizer (lines 115-126): lowercase, strip markup,
tokenize, and drop stopword tokens.  Named separately because the spec speaks
about the token list at this point, before reduction. -/
def filtered_tokens (content : String) : List String :=
  (word_tokenize (stripTags (lowerString content))).filter
    (fun token => !(token ∈ stop_words))

/-- Lines 98-140, `preprocess_content(content, custom_processing)`: lowercase,
strip HTML, tokenize, remove stopwords, then lemmatize (if the flag is set)
or stem, and join with single spaces. -/
def preprocess_content (content : String) (custom_processing : Bool := false) : String :=
  let processed_tokens :=
    if custom_processing then (filtered_tokens content).map wordnet_lemmatize
    else (filtered_tokens content).map porter_stem
  String.intercalate " " processed_tokens

/-! Link Extractor, Content Fetcher, worker pipeline and orchestrator
(lines 26-238). -/

/-- Lines 26-48, `get_repo_urls(page_url)`: the argument stands for the
outcome of `requests.get(page_url)`.  On a 200 response the hrefs selected by
`select("h1[class='h3 lh-condensed'] a[href]")` are prefixed with `base_url`;
a non-200 status logs a warning and falls through to `return []`; a raised
exception is caught by the `except Exception` handler and also falls through
to `return []`. -/
def get_repo_urls (pageFetch : FetchResult) : List String :=
  match pageFetch with
  | .error _ => []
  | .ok response =>
    if response.status_code = 200 then
      response.doc.repoAnchorHrefs.map (fun href => base_url ++ href)
    else []

/-- Lines 51-95, `get_readme_content(repo_url, retries=3)`.  `attempt` indexes
the successive GETs of the repository page.  Status 200: look for the
`readme-permalink` anchor; absent anchor logs and returns `None`; present
anchor: GET `base_url + href`, return its text (modelled as the parsed `Doc`)
on 200, else `None`.  Non-200 with `retries > 0`: the source runs
`time.sleep(1)` and recurses with `retries - 1` — but `time` is not a bound
name, so the evaluation raises `NameError`, which the `except Exception`
handler at line 92 catches, falling through to `return None`.  Non-200 with
`retries == 0`: log and return `None`.  A transport exception from either GET
is caught by the handlers at lines 89-93 and yields `None`. -/
def get_readme_content (w : World) (repo_url : String) (attempt : Nat)
    (retries : Nat := 3) : Option Doc :=
  match w.repoPageFetch repo_url attempt with
  | .error _ => none
  | .ok response =>
    if response.status_code = 200 then
      match response.doc.readmeAnchor with
      | some readme_link =>
        match lookup_attr readme_link "href" with
        | none => none
        | some href =>
          match w.readmeFetch (base_url ++ href) with
          | .error _ => none
          | .ok readme_response =>
            if readme_response.status_code = 200 then some readme_response.doc
            else none
      | none => none
    else
      match retries with
      | r + 1 =>
        (match time_sleep_1 with
         | .error _ => none
         | .ok _ => get_readme_content w repo_url (attempt + 1) r)
      | 0 => none

/-- Line 180, `any(repo_name == row["Repository Name"] for row in
existing_data)`, for a list-of-dicts value: short-circuit scan, with a
`KeyError` if a row lacks the field. -/
def any_name_matches (repo_name : String) : List Row → Except PyErr Bool
  | [] => .ok false
  | row :: rest =>
    match pyDictGet row "Repository Name" with
    | .error e => .error e
    | .ok v => if repo_name = v then .ok true else any_name_matches repo_name rest

/-- Line 180 for the value `existing_data` actually holds.  Iterating a dict
yields its keys, so for a non-empty dict the first loop iteration evaluates
`key["Repository Name"]` on a string, raising `TypeError`; an empty dict makes
`any` return `False` without iterating. -/
def dup_check (repo_name : String) : PyVal → Except PyErr Bool
  | .list rows => any_name_matches repo_name rows
  | .dict row =>
    if row.isEmpty then .ok false
    else .error (.typeError "string indices must be integers")

/-- Lines 155-197, `process_repository(repo_url, existing_data)`.  The result
is the list of rows the call appended to the CSV file (empty on every skip
path), or the Python exception it raised.  Control flow: a falsy
`readme_content` (None or empty text) ends the function; a missing
`h1.public` element makes `soup.find(...)` return `None`, so `.text` raises
`AttributeError`; the duplicate check of line 180 runs next (its `TypeError`
is raised before anything later); then `preprocess_content` with
lemmatization; then the row dict literal, whose first value expression
`datetime.now()` raises `AttributeError`; only then would `write_to_csv`
run. -/
def process_repository (w : World) (repo_url : String) (existing_data : PyVal) :
    Except PyErr (List Row) :=
  match get_readme_content w repo_url 0 3 with
  | none => .ok []
  | some readme_doc =>
    if readme_doc.raw = "" then .ok []
    else
      match readme_doc.publicH1 with
      | none => .error (.attributeError "text")
      | some h1_text =>
        let repo_name := h1_text.trim
        match dup_check repo_name existing_data with
        | .error e => .error e
        | .ok true => .ok []
        | .ok false =>
          let preprocessed := preprocess_content readme_doc.raw true
          match datetime_now_strftime with
          | .error e => .error e
          | .ok ts =>
            .ok [[("Processed At", ts), ("Repository Name", repo_name),
                  ("Homepage URL", repo_url),
                  ("Processed Readme.MD Content", preprocessed)]]

/-- The cell list `csv.DictWriter(..., fieldnames=headers).writerow(data)`
emits: the values of `data` in header order (`restval` stands in for missing
fields, and our dicts always carry all four). -/
def row_cells (data : Row) : List String :=
  headers.map (fun h => pyDictGetD data h "")

/-- Lines 143-152, `write_to_csv(data)`: open the CSV file in append mode and
write the single row for `data`.  The file is modelled as its list of rows
(each a list of cells). -/
def write_to_csv (file : List (List String)) (data : Row) : List (List String) :=
  file ++ [row_cells data]

/-- State of the CSV file on disk: whether `os.path.isfile` sees it, and its
rows. -/
structure FileState where
  present : Bool
  rows : List (List String)
  deriving Repr, DecidableEq

/-- Lines 211-214 of `main`: if the CSV file does not exist, create it
(open mode "w") and write the header row; an existing file is left alone. -/
def ensure_csv (fs : FileState) : FileState :=
  if fs.present then fs else { present := true, rows := [headers] }

/-- Lines 217-221 of `main`: `csv.DictReader` takes the first row as the field
names and yields one dict per remaining row, zipping field names with
cells. -/
def read_existing_data (rows : List (List String)) : List Row :=
  match rows with
  | [] => []
  | header :: dataRows => dataRows.map (fun r => header.zip r)

/-- Line 236: `executor.map(process_repository, repo_urls, existing_data)`
iterates its two argument iterables in lockstep, like `zip`, stopping at the
shorter one; each pair becomes one submitted task. -/
def dispatch (repo_urls : List String) (existing_data : List Row) :
    List (String × Row) :=
  repo_urls.zip existing_data

/-- Outcomes of the submitted tasks: each worker runs `process_repository` on
its URL and its single zipped row dict.  A task's exception is captured in its
future; since the iterator `executor.map` returns is never consumed, captured
exceptions are never re-raised. -/
def task_results (w : World) (repo_urls : List String) (existing_data : List Row) :
    List (Except PyErr (List Row)) :=
  (dispatch repo_urls existing_data).map
    (fun p => process_repository w p.fst (PyVal.dict p.snd))

/-- Rows a task appended to the CSV file: none when it raised (every raising
path of `process_repository` precedes the write). -/
def writesOf : Except PyErr (List Row) → List Row
  | .ok written => written
  | .error _ => []

/-- All rows appended during a run, in task order.  Completion order between
workers is nondeterministic; the claims below only count and collect rows,
which is order-insensitive, and every run of this program appends at most one
row per task. -/
def appended_rows (results : List (Except PyErr (List Row))) : List Row :=
  (results.map writesOf).flatten

/-- Lines 200-238, `main()`: ensure the CSV file exists (with header), read
the prior records, fetch the listing page URLs, return early if there are
none, otherwise dispatch the zipped tasks to the pool and append every row the
workers wrote.  The result is `Except` because an uncaught exception would
propagate out of `main`; no expression in its body raises (task exceptions
stay inside their futures). -/
def main (w : World) (fs0 : FileState) : Except PyErr FileState :=
  let fs1 := ensure_csv fs0
  let existing_data := read_existing_data fs1.rows
  let repo_urls := get_repo_urls w.listingFetch
  if repo_urls.isEmpty then .ok fs1
  else
    let results := task_results w repo_urls existing_data
    .ok { fs1 with rows := (appended_rows results).foldl write_to_csv fs1.rows }

/-! Concrete scenarios from the specification's test properties. -/

/-- An empty document. -/
def docEmpty : Doc :=
  { repoAnchorHrefs := [], readmeAnchor := none, publicH1 := none, raw := "" }

/-- A listing page whose markup links two repositories. -/
def docListing : Doc :=
  { repoAnchorHrefs := ["/userA/repoA", "/userB/repoB"], readmeAnchor := none,
    publicH1 := none, raw := "listing page" }

/-- Repository A's page: it carries a README permalink. -/
def docRepoA : Doc :=
  { repoAnchorHrefs := [],
    readmeAnchor := some [("id", "readme-permalink"),
                          ("href", "/userA/repoA/blob/main/README.md")],
    publicH1 := none, raw := "page A" }

/-- Repository A's README page, with the repository-name heading. -/
def docReadmeA : Doc :=
  { repoAnchorHrefs := [], readmeAnchor := none, publicH1 := some "repoA",
    raw := "readme body A" }

/-- Repository B's page: no README permalink. -/
def docRepoB : Doc :=
  { repoAnchorHrefs := [], readmeAnchor := none, publicH1 := none,
    raw := "page B" }

/-- A README page whose markup lacks the `h1.public` heading. -/
def docReadmeNoH1 : Doc :=
  { repoAnchorHrefs := [], readmeAnchor := none, publicH1 := none,
    raw := "readme without a heading" }

/-- Repository A's URL as the Link Extractor produces it. -/
def urlA : String := base_url ++ "/userA/repoA"

/-- Repository B's URL as the Link Extractor produces it. -/
def urlB : String := base_url ++ "/userB/repoB"

/-- The end-to-end world of the specification's test: a listing page with two
links, A with a README, B without. -/
def wAB : World :=
  { listingFetch := .ok ⟨200, docListing⟩
  , repoPageFetch := fun url _ =>
      if url = urlA then .ok ⟨200, docRepoA⟩
      else if url = urlB then .ok ⟨200, docRepoB⟩
      else .error .connectionError
  , readmeFetch := fun url =>
      if url = base_url ++ "/userA/repoA/blob/main/README.md" then
        .ok ⟨200, docReadmeA⟩
      else .error .connectionError }

/-- A world where A's README page lacks the name heading. -/
def wNoH1 : World :=
  { listingFetch := .ok ⟨200, docListing⟩
  , repoPageFetch := fun url _ =>
      if url = urlA then .ok ⟨200, docRepoA⟩ else .ok ⟨200, docRepoB⟩
  , readmeFetch := fun _ => .ok ⟨200, docReadmeNoH1⟩ }

/-- A repository page carrying a README permalink, for the retry scenario. -/
def docRepoK : Doc :=
  { repoAnchorHrefs := [],
    readmeAnchor := some [("id", "readme-permalink"), ("href", "/k/k/README.md")],
    publicH1 := none, raw := "page K" }

/-- The README behind `docRepoK`. -/
def docReadmeK : Doc :=
  { repoAnchorHrefs := [], readmeAnchor := none, publicH1 := some "repoK",
    raw := "readme body K" }

/-- The mocked endpoint of the retry property: the repository page returns a
non-200 status exactly once (attempt 0) and then 200 with the permalink
present and its target fetch succeeding, so `k = 1` with budget `r = 3`. -/
def wRetry : World :=
  { listingFetch := .error .connectionError
  , repoPageFetch := fun _ attempt =>
      if attempt = 0 then .ok ⟨503, docEmpty⟩ else .ok ⟨200, docRepoK⟩
  , readmeFetch := fun _ => .ok ⟨200, docReadmeK⟩ }

/-- A world where every fetch raises a transport error. -/
def wPageErr : World :=
  { listingFetch := .error .connectionError
  , repoPageFetch := fun _ _ => .error .connectionError
  , readmeFetch := fun _ => .error .connectionError }

/-- A world where repository pages respond but every README permalink fetch
times out. -/
def wReadmeErr : World :=
  { listingFetch := .error .timeout
  , repoPageFetch := fun _ _ => .ok ⟨200, docRepoA⟩
  , readmeFetch := fun _ => .error .timeout }

/-- A prior record as `csv.DictReader` would load it. -/
def priorRow : Row :=
  [("Processed At", "t0"), ("Repository Name", "oldname"),
   ("Homepage URL", "u0"), ("Processed Readme.MD Content", "c0")]

/-- The cells of `priorRow` as they sit in the file. -/
def priorCells : List String := ["t0", "oldname", "u0", "c0"]

/-! Helper lemmas. -/

/-- A map by a function that fixes every element of a list is the identity. -/
theorem list_map_self {α : Type} {l : List α} {f : α → α}
    (h : ∀ a ∈ l, f a = a) : l.map f = l := by
  induction l with
  | nil => rfl
  | cons a t ih =>
    rw [List.map_cons, h a (List.mem_cons_self a t),
        ih (fun x hx => h x (List.mem_cons_of_mem a hx))]

/-- The tag-stripping scan leaves a text without `<` unchanged. -/
theorem stripTagsAux_no_tag {l : List Char} (h : ∀ c ∈ l, ¬ c = '<') :
    stripTagsAux l false = l := by
  induction l with
  | nil => rfl
  | cons c t ih =>
    simp only [stripTagsAux, if_neg (h c (List.mem_cons_self c t))]
    rw [ih (fun x hx => h x (List.mem_cons_of_mem c hx))]

/-- Markup removal leaves a markup-free text unchanged. -/
theorem stripTags_fixed {s : String} (h : ∀ c ∈ s.data, ¬ c = '<') :
    stripTags s = s := by
  cases s with
  | mk data =>
    show String.mk (stripTagsAux data false) = String.mk data
    rw [stripTagsAux_no_tag h]

/-- Lowercasing leaves an already-lowercase text unchanged. -/
theorem lowerString_fixed {s : String} (h : ∀ c ∈ s.data, c.toLower = c) :
    lowerString s = s := by
  cases s with
  | mk data =>
    show String.mk (data.map Char.toLower) = String.mk data
    rw [list_map_self h]

/-- Folding the Record Writer over a list of records appends their cell rows
in order, leaving the existing rows in place. -/
theorem foldl_write_to_csv (datas : List Row) (file : List (List String)) :
    datas.foldl write_to_csv file = file ++ datas.map row_cells := by
  induction datas generalizing file with
  | nil => simp
  | cons d t ih =>
    rw [List.foldl_cons, ih, List.map_cons]
    show write_to_csv file d ++ t.map row_cells = _
    rw [write_to_csv, List.append_assoc]
    rfl

/-- The Content Fetcher reads the world only through the page fetches of its
own URL and the README fetches. -/
theorem get_readme_content_ext {w w' : World} (url : String)
    (hp : ∀ a, w'.repoPageFetch url a = w.repoPageFetch url a)
    (hr : ∀ u, w'.readmeFetch u = w.readmeFetch u) :
    ∀ r a, get_readme_content w' url a r = get_readme_content w url a r := by
  intro r
  induction r with
  | zero =>
    intro a
    simp only [get_readme_content, hp, hr]
  | succ n ih =>
    intro a
    simp only [get_readme_content, hp, hr, ih]

/-- A worker's pipeline reads the world only through the fetches of its own
URL and the README fetches. -/
theorem process_repository_ext {w w' : World} (url : String) (v : PyVal)
    (hp : ∀ a, w'.repoPageFetch url a = w.repoPageFetch url a)
    (hr : ∀ u, w'.readmeFetch u = w.readmeFetch u) :
    process_repository w' url v = process_repository w url v := by
  simp only [process_repository, get_readme_content_ext url hp hr]

/-! Claim theorems. -/

/-- C1: the claim fails on the code.  On a listing page with two repository
URLs where A's page has a README permalink (and the name heading on the
README) and B's page has none, a run appends no row at all: against a fresh
output file the zipped dispatch of line 236 is empty, and against a file with
a prior record the worker's duplicate check raises `TypeError` (captured in
its future) before any write, so the file keeps exactly its previous rows —
never the claimed new row for A. -/
theorem c1_run_appends_no_row :
    main wAB { present := false, rows := [] }
      = .ok { present := true, rows := [headers] }
  ∧ main wAB { present := true, rows := [headers, priorCells] }
      = .ok { present := true, rows := [headers, priorCells] } := by
  constructor <;> rfl

/-- C2: the claim fails on the code.  `executor.map` pairs each URL with a
single prior record instead of passing the whole snapshot, and a worker whose
repository has a README and a name heading raises `TypeError` in the
duplicate check, because the membership test iterates the keys of the one
dict it received and indexes a string with a string. -/
theorem c2_worker_gets_single_row :
    dispatch [urlA, urlB] [priorRow] = [(urlA, priorRow)]
  ∧ process_repository wAB urlA (PyVal.dict priorRow)
      = .error (.typeError "string indices must be integers") := by
  constructor <;> rfl

/-- C3: the claim fails on the code.  Against an endpoint returning non-200
exactly once and then 200 with the README present (`k = 1` below the budget
`r = 3`), the Fetcher returns the absence-marker: `time` is never imported, so
the `time.sleep(1)` of the retry branch raises `NameError`, the
`except Exception` handler catches it, and no retry or pause ever happens. -/
theorem c3_retry_never_runs :
    time_sleep_1 = .error (.nameError "time")
  ∧ get_readme_content wRetry urlA 0 3 = none := by
  constructor <;> rfl

/-- C4: because line 236 passes the prior-record list as a second iterable to
`executor.map`, the dispatched tasks are the element-wise pairs of URLs and
prior records, so at most as many URLs are attempted as there are prior
records in the file; with a freshly created output file (header only, no data
rows) nothing is dispatched at all. -/
theorem c4_dispatch_bounded (w : World) (fs : FileState) :
    (dispatch (get_repo_urls w.listingFetch)
        (read_existing_data (ensure_csv fs).rows)).length
      ≤ (read_existing_data (ensure_csv fs).rows).length
  ∧ (fs.present = false →
      dispatch (get_repo_urls w.listingFetch)
        (read_existing_data (ensure_csv fs).rows) = []) := by
  constructor
  · rw [dispatch, List.length_zip]
    exact Nat.min_le_right _ _
  · intro h
    have hens : ensure_csv fs = { present := true, rows := [headers] } := by
      rw [ensure_csv, h]
      simp
    rw [hens]
    show dispatch (get_repo_urls w.listingFetch) (read_existing_data [headers]) = []
    rw [read_existing_data, dispatch]
    simp

/-- Witness for C4 at the end-to-end world and a fresh file. -/
theorem c4_dispatch_bounded_witness :
    dispatch (get_repo_urls wAB.listingFetch)
      (read_existing_data (ensure_csv { present := false, rows := [] }).rows)
      = [] :=
  (c4_dispatch_bounded wAB { present := false, rows := [] }).2 rfl

/-- C5: transport-level failures raised during any HTTP fetch are caught
inside the Link Extractor and the Content Fetcher: a failed listing fetch
makes `get_repo_urls` return the empty list, a failed repository-page fetch
makes `get_readme_content` return the absence-marker, and a failed README
permalink fetch (after a 200 page with the permalink present) also makes
`get_readme_content` return the absence-marker — never an exception. -/
theorem c5_transport_failures_contained (e : TransportError) (w : World)
    (url : String) (a r : Nat) :
    get_repo_urls (.error e) = []
  ∧ (w.repoPageFetch url a = .error e → get_readme_content w url a r = none)
  ∧ (∀ resp attrs href,
      w.repoPageFetch url a = .ok resp → resp.status_code = 200 →
      resp.doc.readmeAnchor = some attrs → lookup_attr attrs "href" = some href →
      w.readmeFetch (base_url ++ href) = .error e →
      get_readme_content w url a r = none) := by
  refine ⟨rfl, ?_, ?_⟩
  · intro h
    cases r <;> simp only [get_readme_content, h]
  · intro resp attrs href h1 h2 h3 h4 h5
    cases r <;> simp [get_readme_content, h1, h2, h3, h4, h5]

/-- Witness for C5: a dead network for the page fetch, and a timing-out README
fetch behind a healthy page. -/
theorem c5_transport_failures_contained_witness :
    get_readme_content wPageErr urlA 0 3 = none
  ∧ get_readme_content wReadmeErr urlA 0 3 = none := by
  constructor
  · exact (c5_transport_failures_contained .connectionError wPageErr urlA 0 3).2.1 rfl
  · exact (c5_transport_failures_contained .timeout wReadmeErr urlA 0 3).2.2
      ⟨200, docRepoA⟩
      [("id", "readme-permalink"), ("href", "/userA/repoA/blob/main/README.md")]
      "/userA/repoA/blob/main/README.md" rfl rfl rfl rfl rfl

/-- C6: every URL the Link Extractor returns is the fixed `base_url` origin
followed by an anchor's relative path, for every input document and fetch
outcome. -/
theorem c6_urls_share_origin (pageFetch : FetchResult) (u : String)
    (hu : u ∈ get_repo_urls pageFetch) :
    ∃ href, u = base_url ++ href := by
  match pageFetch with
  | .error _ => exact absurd hu (List.not_mem_nil u)
  | .ok resp =>
    rw [get_repo_urls] at hu
    by_cases h : resp.status_code = 200
    · rw [if_pos h] at hu
      obtain ⟨href, _, rfl⟩ := List.mem_map.mp hu
      exact ⟨href, rfl⟩
    · rw [if_neg h] at hu
      exact absurd hu (List.not_mem_nil u)

/-- Witness for C6 at the listing page of the end-to-end scenario. -/
theorem c6_urls_share_origin_witness : ∃ href, urlA = base_url ++ href :=
  c6_urls_share_origin (.ok ⟨200, docListing⟩) urlA (by decide)

/-- C7: when a fetched README's markup lacks the `h1.public` heading, the
worker's pipeline raises an unhandled `AttributeError` and writes no row; the
fault stays inside that task: `main` still completes normally, and every task
for another URL computes exactly what it would compute in a world where the
faulting repository's page were different — one bad page never aborts the
batch. -/
theorem c7_missing_heading_isolated (w w' : World) (fs : FileState)
    (url : String) (prior : Row) (readme_doc : Doc)
    (hget : get_readme_content w url 0 3 = some readme_doc)
    (hraw : ¬ readme_doc.raw = "")
    (hh1 : readme_doc.publicH1 = none) :
    process_repository w url (PyVal.dict prior) = .error (.attributeError "text")
  ∧ writesOf (process_repository w url (PyVal.dict prior)) = []
  ∧ (∃ fsOut, main w fs = .ok fsOut)
  ∧ ((∀ u, ¬ u = url → ∀ a, w'.repoPageFetch u a = w.repoPageFetch u a) →
      (∀ u, w'.readmeFetch u = w.readmeFetch u) →
      ∀ u' prior', ¬ u' = url →
        process_repository w' u' (PyVal.dict prior')
          = process_repository w u' (PyVal.dict prior')) := by
  have hpr : process_repository w url (PyVal.dict prior)
      = .error (.attributeError "text") := by
    rw [process_repository, hget]
    simp [hraw, hh1]
  refine ⟨hpr, by rw [hpr]; rfl, ?_, ?_⟩
  · rw [main]
    dsimp only
    split
    · exact ⟨_, rfl⟩
    · exact ⟨_, rfl⟩
  · intro hp hr u' prior' hne
    exact process_repository_ext u' (PyVal.dict prior') (fun a => hp u' hne a) hr

/-- Witness for C7: in the world where A's README page has no heading, A's
task faults, writes nothing, the run completes, and B's task is unaffected. -/
theorem c7_missing_heading_isolated_witness :
    process_repository wNoH1 urlA (PyVal.dict priorRow)
      = .error (.attributeError "text")
  ∧ writesOf (process_repository wNoH1 urlA (PyVal.dict priorRow)) = []
  ∧ (∃ fsOut, main wNoH1 { present := true, rows := [headers, priorCells] }
      = .ok fsOut)
  ∧ process_repository wNoH1 urlB (PyVal.dict priorRow)
      = process_repository wNoH1 urlB (PyVal.dict priorRow) := by
  have h := c7_missing_heading_isolated wNoH1 wNoH1
    { present := true, rows := [headers, priorCells] } urlA priorRow docReadmeNoH1
    rfl (by decide) rfl
  exact ⟨h.1, h.2.1, h.2.2.1,
    h.2.2.2 (fun u hu a => rfl) (fun u => rfl) urlB priorRow (by decide)⟩

/-- C8: the Record Writer appends exactly one row per call, with the cells in
the fixed column order, leaving the header and every previously written row in
place; `main` leaves an existing file untouched at startup, writes the header
only when creating a missing file, and only ever extends the rows of the
ensured file. -/
theorem c8_writer_appends_one_row (file : List (List String)) (data : Row)
    (fs : FileState) (w : World) :
    write_to_csv file data = file ++ [row_cells data]
  ∧ row_cells data =
      [pyDictGetD data "Processed At" "",
       pyDictGetD data "Repository Name" "",
       pyDictGetD data "Homepage URL" "",
       pyDictGetD data "Processed Readme.MD Content" ""]
  ∧ (write_to_csv file data).take file.length = file
  ∧ ensure_csv fs = (if fs.present then fs else { present := true, rows := [headers] })
  ∧ ∃ newRows, main w fs = .ok { present := true, rows := (ensure_csv fs).rows ++ newRows } := by
  refine ⟨rfl, rfl, ?_, ?_, ?_⟩
  · rw [write_to_csv, List.take_left]
  · cases fs with
    | mk present rows => cases present <;> rfl
  · cases fs with
    | mk present rows =>
      cases present
      all_goals
        rw [main]
        dsimp only
        split
      · exact ⟨[], by simp [ensure_csv]⟩
      · exact ⟨_, by rw [foldl_write_to_csv]; exact rfl⟩
      · exact ⟨[], by simp [ensure_csv]⟩
      · exact ⟨_, by rw [foldl_write_to_csv]; exact rfl⟩

/-- C9: for the input "the quick Fox and the dog" in stemming mode, the
normalizer's output tokens are exactly `quick fox dog` — neither "the" nor
"and" survives — and in general the token list after the stopword stage
(before reduction) contains no member of the stopword set, for any input. -/
theorem c9_stopwords_removed :
    (word_tokenize (preprocess_content "the quick Fox and the dog" false)
        = ["quick", "fox", "dog"]
     ∧ ¬ "the" ∈ word_tokenize (preprocess_content "the quick Fox and the dog" false)
     ∧ ¬ "and" ∈ word_tokenize (preprocess_content "the quick Fox and the dog" false))
  ∧ ∀ (content : String) (t : String), t ∈ stop_words → ¬ t ∈ filtered_tokens content := by
  constructor
  · exact ⟨by decide, by decide, by decide⟩
  · intro content t ht hmem
    rw [filtered_tokens] at hmem
    have hp := List.of_mem_filter hmem
    simp only [Bool.not_eq_true', decide_eq_false_iff_not] at hp
    exact hp ht

/-- Witness for C9: "the" is a stopword and is absent from the filtered token
list of the test sentence. -/
theorem c9_stopwords_removed_witness :
    ¬ "the" ∈ filtered_tokens "the quick Fox and the dog" :=
  c9_stopwords_removed.2 "the quick Fox and the dog" "the" (by decide)

/-- C10: the normalizer is the identity on already-normalized text: if the
text is entirely lowercase, contains no markup, its whitespace-split tokens
are joined by single spaces, none is a stopword, and each is a fixed point of
the reduction selected by the mode, then `preprocess_content` returns the text
unchanged. -/
theorem c10_normalizer_idempotent (s : String) (custom_processing : Bool)
    (hlower : ∀ c ∈ s.data, c.toLower = c)
    (htag : ∀ c ∈ s.data, ¬ c = '<')
    (hjoin : String.intercalate " " (word_tokenize s) = s)
    (hstop : ∀ t ∈ word_tokenize s, ¬ t ∈ stop_words)
    (hred : ∀ t ∈ word_tokenize s,
        (if custom_processing then wordnet_lemmatize t else porter_stem t) = t) :
    preprocess_content s custom_processing = s := by
  have hft : filtered_tokens s = word_tokenize s := by
    rw [filtered_tokens, lowerString_fixed hlower, stripTags_fixed htag]
    apply List.filter_eq_self.mpr
    intro t ht
    simp only [Bool.not_eq_true', decide_eq_false_iff_not]
    exact hstop t ht
  cases custom_processing with
  | false =>
    show String.intercalate " " ((filtered_tokens s).map porter_stem) = s
    rw [hft, list_map_self (fun t ht => by simpa using hred t ht), hjoin]
  | true =>
    show String.intercalate " " ((filtered_tokens s).map wordnet_lemmatize) = s
    rw [hft, list_map_self (fun t ht => by simpa using hred t ht), hjoin]

/-- Witness for C10 on an already-normalized text in stemming mode. -/
theorem c10_normalizer_idempotent_witness :
    preprocess_content "quick fox dog" false = "quick fox dog" :=
  c10_normalizer_idempotent "quick fox dog" false (by decide) (by decide)
    (by decide) (by decide) (by decide)

end RepoRover
